import Mathlib

/-!
Verification of the retry/backoff wrapper in `src/utils/retry.py`
(`retry_on_exception`) and its exhaustion exception in
`src/utils/exceptions.py` (`MaxRetriesExceeded`).

The Python wrapper is a `while True` loop: it increments a 1-based attempt
counter, invokes the wrapped function with the original `*args, **kwargs`,
and on an exception matching the configured `exceptions` tuple either
raises `MaxRetriesExceeded` (when `attempt > max_retries`) or sleeps an
exponential-backoff delay (optionally jittered) and loops.  Any other
exception propagates immediately.

Embedding choices:
  * Python exceptions are values of `Err`, carrying a `kind` (the exception
    class, as a numeric id) and a `payload` distinguishing instances; the
    decorator's `exceptions` tuple is the list of retryable kinds.
  * The wrapped function is `func : β → Nat → Sum α Err`: `β` stands for the
    fixed `(*args, **kwargs)` tuple, and the extra `Nat` is the (1-based)
    invocation index, modelling that a side-effecting call may behave
    differently on each invocation.  `Sum.inl` is a normal return,
    `Sum.inr` a raised exception.
  * `random.uniform(-0.1, 0.1)` is modelled by an oracle `rand : Nat → Rat`
    giving the sample drawn on a given attempt; Python floats are embedded
    as rationals.
  * `time.sleep`, `logger.warning` and `logger.error` are effects, recorded
    in the `RunResult` trace together with the final outcome, the number of
    invocations, and the argument tuple passed to each invocation.
    The logger *selection* (lines 45-50 of retry.py: `self.logger` versus a
    module logger) only chooses the sink and is not modelled; the events
    themselves are.
-/

/-- A Python exception instance: the exception class (`kind`, a numeric id)
plus a payload distinguishing instances of the same class. -/
structure Err where
  kind : Nat
  payload : Nat
deriving DecidableEq, Repr

/-- The configuration of `retry_on_exception` (retry.py lines 20-25):
`max_retries`, `backoff_factor`, the tuple `exceptions` of retryable
exception classes (as kind ids), and the `jitter` flag. -/
structure RetryPolicy where
  max_retries : Int
  backoff_factor : Rat
  exceptions : List Nat
  jitter : Bool
deriving DecidableEq, Repr

/-- One `logger.warning("[RETRY] %s raised %s. Retrying in %.2fs (attempt %d/%d)", ...)`
event (retry.py lines 74-81): function name, the exception, the computed
wait, the current attempt and `max_retries`. -/
structure WarnEvent where
  funcName : String
  exc : Err
  wait : Rat
  attempt : Nat
  maxRetries : Int
deriving DecidableEq, Repr

/-- One `logger.error("%s failed after %d attempts: %s", func.__name__, attempt - 1, exc)`
event (retry.py lines 59-64).  `attempts` is the integer actually passed,
namely `attempt - 1`. -/
structure ErrorEvent where
  funcName : String
  attempts : Int
  exc : Err
deriving DecidableEq, Repr

/-- How one wrapped call terminates: a normal return, the
`MaxRetriesExceeded` exception (exceptions.py lines 3-5) carrying its
message string and its `__cause__` (the `from exc` clause, retry.py
line 67), or an unmodified propagated exception. -/
inductive CallResult (α : Type) where
  | ok : α → CallResult α
  | maxRetriesExceeded : String → Err → CallResult α
  | raised : Err → CallResult α
deriving DecidableEq, Repr

/-- The observable outcome of one wrapped call: the result, the number of
invocations of the underlying function, the argument tuple used by each
invocation (in order), the delays slept (in order), and the warning- and
error-level log events (in order). -/
structure RunResult (α : Type) (β : Type) where
  result : CallResult α
  invocations : Nat
  callArgs : List β
  sleeps : List Rat
  warns : List WarnEvent
  errors : List ErrorEvent
deriving DecidableEq, Repr

/-- The message of the `MaxRetriesExceeded` raised at exhaustion:
`f"{func.__name__} failed after {max_retries} retries"` (retry.py line 66). -/
def exhaustedMessage (fn : String) (max_retries : Int) : String :=
  fn ++ " failed after " ++ toString max_retries ++ " retries"

/-- The delay computed before retrying after a failed attempt `a`
(retry.py lines 69-72): `wait = backoff_factor * (2 ** (attempt - 1))`,
then `wait = wait * (1 + random.uniform(-0.1, 0.1))` when `jitter`. -/
def waitFor (p : RetryPolicy) (rand : Nat → Rat) (a : Nat) : Rat :=
  let wait := p.backoff_factor * 2 ^ (a - 1)
  if p.jitter then wait * (1 + rand a) else wait

/-- The body of `wrapper` (retry.py lines 52-85), parametrised by the value
of the `attempt` counter before the next `attempt += 1`.  Each loop
iteration increments `attempt`, invokes `func(*args, **kwargs)`, and on an
exception whose kind is in `exceptions` either raises `MaxRetriesExceeded`
(when `attempt > max_retries`, logging one error event with `attempt - 1`)
or sleeps the backoff delay (logging one warning event) and loops; an
exception of any other kind re-raises immediately. -/
def wrapper (p : RetryPolicy) (fn : String) (func : β → Nat → Sum α Err)
    (args : β) (rand : Nat → Rat) (attempt : Nat) : RunResult α β :=
  match func args (attempt + 1) with
  | Sum.inl v =>
      ⟨CallResult.ok v, 1, [args], [], [], []⟩
  | Sum.inr exc =>
      if exc.kind ∈ p.exceptions then
        if h : (attempt : Int) + 1 > p.max_retries then
          ⟨CallResult.maxRetriesExceeded (exhaustedMessage fn p.max_retries) exc,
       1, [args], [], [],
       [⟨fn, (attempt : Int) + 1 - 1, exc⟩]⟩
        else
          let wait := waitFor p rand (attempt + 1)
          let rest := wrapper p fn func args rand (attempt + 1)
          ⟨rest.result, 1 + rest.invocations, args :: rest.callArgs,
       wait :: rest.sleeps,
       ⟨fn, exc, wait, attempt + 1, p.max_retries⟩ :: rest.warns,
       rest.errors⟩
      else
        ⟨CallResult.raised exc, 1, [args], [], [], []⟩
termination_by p.max_retries.toNat - attempt
decreasing_by omega

/-- One call of the decorated function: run the `wrapper` loop with the
attempt counter initialised to `0` (retry.py line 52). -/
def retry_on_exception (p : RetryPolicy) (fn : String)
    (func : β → Nat → Sum α Err) (args : β) (rand : Nat → Rat) :
    RunResult α β :=
  wrapper p fn func args rand 0

section StepLemmas

variable {α β : Type} (p : RetryPolicy) (fn : String)
  (func : β → Nat → Sum α Err) (args : β) (rand : Nat → Rat)

/-- Loop step, success branch (retry.py line 56): the call returns. -/
lemma wrapper_ok {att : Nat} {v : α} (hfa : func args (att + 1) = Sum.inl v) :
    wrapper p fn func args rand att =
      ⟨CallResult.ok v, 1, [args], [], [], []⟩ := by
  rw [wrapper, hfa]

/-- Loop step, exhaustion branch (retry.py lines 58-67): a retryable
exception with `attempt > max_retries` logs one error event and raises
`MaxRetriesExceeded`. -/
lemma wrapper_exhaust {att : Nat} {exc : Err}
    (hfa : func args (att + 1) = Sum.inr exc)
    (hk : exc.kind ∈ p.exceptions) (hgt : (att : Int) + 1 > p.max_retries) :
    wrapper p fn func args rand att =
      ⟨CallResult.maxRetriesExceeded (exhaustedMessage fn p.max_retries) exc,
       1, [args], [], [], [⟨fn, (att : Int) + 1 - 1, exc⟩]⟩ := by
  rw [wrapper, hfa]
  simp [hk, hgt]

/-- Loop step, retry branch (retry.py lines 69-82): a retryable exception
with `attempt ≤ max_retries` sleeps the backoff delay, logs one warning
event, and loops. -/
lemma wrapper_retry {att : Nat} {exc : Err}
    (hfa : func args (att + 1) = Sum.inr exc)
    (hk : exc.kind ∈ p.exceptions) (hle : ¬((att : Int) + 1 > p.max_retries)) :
    wrapper p fn func args rand att =
      ⟨(wrapper p fn func args rand (att + 1)).result,
       1 + (wrapper p fn func args rand (att + 1)).invocations,
       args :: (wrapper p fn func args rand (att + 1)).callArgs,
       waitFor p rand (att + 1) :: (wrapper p fn func args rand (att + 1)).sleeps,
       ⟨fn, exc, waitFor p rand (att + 1), att + 1, p.max_retries⟩ ::
         (wrapper p fn func args rand (att + 1)).warns,
       (wrapper p fn func args rand (att + 1)).errors⟩ := by
  rw [wrapper, hfa]
  simp [hk, hle]

/-- Loop step, non-retryable branch (retry.py lines 83-85): any other
exception propagates immediately. -/
lemma wrapper_raise {att : Nat} {exc : Err}
    (hfa : func args (att + 1) = Sum.inr exc)
    (hk : exc.kind ∉ p.exceptions) :
    wrapper p fn func args rand att =
      ⟨CallResult.raised exc, 1, [args], [], [], []⟩ := by
  rw [wrapper, hfa]
  simp [hk]

end StepLemmas

section StructuralLemmas

variable {α β : Type} (p : RetryPolicy) (fn : String)
  (func : β → Nat → Sum α Err) (args : β) (rand : Nat → Rat)

/-- Every run makes at least one invocation. -/
lemma wrapper_invocations_pos (att : Nat) :
    1 ≤ (wrapper p fn func args rand att).invocations := by
  induction att using wrapper.induct p fn func args rand with
  | case1 att v hfa => rw [wrapper_ok p fn func args rand hfa]
  | case2 att exc hfa hk hgt => rw [wrapper_exhaust p fn func args rand hfa hk hgt]
  | case3 att exc hfa hk hle ih =>
      rw [wrapper_retry p fn func args rand hfa hk hle]
      exact Nat.le_add_right 1 _
  | case4 att exc hfa hk => rw [wrapper_raise p fn func args rand hfa hk]

/-- Every invocation is passed the original argument tuple, unchanged:
the trace of argument tuples is `invocations` copies of `args`. -/
lemma wrapper_callArgs (att : Nat) :
    (wrapper p fn func args rand att).callArgs =
      List.replicate (wrapper p fn func args rand att).invocations args := by
  induction att using wrapper.induct p fn func args rand with
  | case1 att v hfa => rw [wrapper_ok p fn func args rand hfa]; rfl
  | case2 att exc hfa hk hgt =>
      rw [wrapper_exhaust p fn func args rand hfa hk hgt]; rfl
  | case3 att exc hfa hk hle ih =>
      rw [wrapper_retry p fn func args rand hfa hk hle]
      simp only [ih]
      rw [Nat.add_comm 1, List.replicate_succ]
  | case4 att exc hfa hk => rw [wrapper_raise p fn func args rand hfa hk]; rfl

/-- The delays slept: one per non-final invocation, the `i`-th (0-based)
being the backoff computed after failed attempt `att + i + 1`. -/
lemma wrapper_sleeps (att : Nat) :
    (wrapper p fn func args rand att).sleeps =
      (List.range ((wrapper p fn func args rand att).invocations - 1)).map
        (fun i => waitFor p rand (att + i + 1)) := by
  induction att using wrapper.induct p fn func args rand with
  | case1 att v hfa => rw [wrapper_ok p fn func args rand hfa]; rfl
  | case2 att exc hfa hk hgt =>
      rw [wrapper_exhaust p fn func args rand hfa hk hgt]; rfl
  | case3 att exc hfa hk hle ih =>
      rw [wrapper_retry p fn func args rand hfa hk hle]
      simp only [ih]
      have h1 : 1 + (wrapper p fn func args rand (att + 1)).invocations - 1 =
          ((wrapper p fn func args rand (att + 1)).invocations - 1) + 1 := by
        have := wrapper_invocations_pos p fn func args rand (att + 1)
        omega
      rw [h1, List.range_succ_eq_map]
      simp only [List.map_cons, List.map_map]
      refine congrArg₂ List.cons (by norm_num) ?_
      apply List.map_congr_left
      intro i _
      simp only [Function.comp_apply]
      congr 1
      omega
  | case4 att exc hfa hk => rw [wrapper_raise p fn func args rand hfa hk]; rfl

/-- One warning event is logged per non-final invocation. -/
lemma wrapper_warns_length (att : Nat) :
    (wrapper p fn func args rand att).warns.length =
      (wrapper p fn func args rand att).invocations - 1 := by
  induction att using wrapper.induct p fn func args rand with
  | case1 att v hfa => rw [wrapper_ok p fn func args rand hfa]; rfl
  | case2 att exc hfa hk hgt =>
      rw [wrapper_exhaust p fn func args rand hfa hk hgt]; rfl
  | case3 att exc hfa hk hle ih =>
      rw [wrapper_retry p fn func args rand hfa hk hle]
      simp only [List.length_cons, ih]
      have := wrapper_invocations_pos p fn func args rand (att + 1)
      omega
  | case4 att exc hfa hk => rw [wrapper_raise p fn func args rand hfa hk]; rfl

/-- The loop makes at most `max(max_retries, 0) - att + 1` invocations. -/
lemma wrapper_invocations_le (att : Nat) :
    (wrapper p fn func args rand att).invocations ≤
      p.max_retries.toNat - att + 1 := by
  induction att using wrapper.induct p fn func args rand with
  | case1 att v hfa => rw [wrapper_ok p fn func args rand hfa]; exact Nat.le_add_left 1 _
  | case2 att exc hfa hk hgt =>
      rw [wrapper_exhaust p fn func args rand hfa hk hgt]
      exact Nat.le_add_left 1 _
  | case3 att exc hfa hk hle ih =>
      rw [wrapper_retry p fn func args rand hfa hk hle]
      simp only []
      omega
  | case4 att exc hfa hk =>
      rw [wrapper_raise p fn func args rand hfa hk]
      exact Nat.le_add_left 1 _

end StructuralLemmas

section RetryFieldLemmas

variable {α β : Type} (p : RetryPolicy) (fn : String)
  (func : β → Nat → Sum α Err) (args : β) (rand : Nat → Rat)
  {att : Nat} {exc : Err}

/-- Retry branch, projected on `result`. -/
lemma wrapper_retry_result (hfa : func args (att + 1) = Sum.inr exc)
    (hk : exc.kind ∈ p.exceptions) (hle : ¬((att : Int) + 1 > p.max_retries)) :
    (wrapper p fn func args rand att).result =
      (wrapper p fn func args rand (att + 1)).result := by
  rw [wrapper_retry p fn func args rand hfa hk hle]

/-- Retry branch, projected on `invocations`. -/
lemma wrapper_retry_invocations (hfa : func args (att + 1) = Sum.inr exc)
    (hk : exc.kind ∈ p.exceptions) (hle : ¬((att : Int) + 1 > p.max_retries)) :
    (wrapper p fn func args rand att).invocations =
      1 + (wrapper p fn func args rand (att + 1)).invocations := by
  rw [wrapper_retry p fn func args rand hfa hk hle]

/-- Retry branch, projected on `errors`. -/
lemma wrapper_retry_errors (hfa : func args (att + 1) = Sum.inr exc)
    (hk : exc.kind ∈ p.exceptions) (hle : ¬((att : Int) + 1 > p.max_retries)) :
    (wrapper p fn func args rand att).errors =
      (wrapper p fn func args rand (att + 1)).errors := by
  rw [wrapper_retry p fn func args rand hfa hk hle]

end RetryFieldLemmas

section ResultLemmas

variable {α β : Type} (p : RetryPolicy) (fn : String)
  (func : β → Nat → Sum α Err) (args : β) (rand : Nat → Rat)

/-- If a run returns normally, the returned value is exactly the value the
underlying function produced on the final invocation, and no error-level
event was logged. -/
lemma wrapper_result_ok (att : Nat) (v : α)
    (h : (wrapper p fn func args rand att).result = CallResult.ok v) :
    func args (att + (wrapper p fn func args rand att).invocations) = Sum.inl v ∧
      (wrapper p fn func args rand att).errors = [] := by
  induction att using wrapper.induct p fn func args rand with
  | case1 att w hfa =>
      rw [wrapper_ok p fn func args rand hfa] at h ⊢
      obtain rfl : w = v := by cases h; rfl
      exact ⟨hfa, rfl⟩
  | case2 att exc hfa hk hgt =>
      rw [wrapper_exhaust p fn func args rand hfa hk hgt] at h
      cases h
  | case3 att exc hfa hk hle ih =>
      rw [wrapper_retry_result p fn func args rand hfa hk hle] at h
      obtain ⟨h1, h2⟩ := ih h
      rw [wrapper_retry_invocations p fn func args rand hfa hk hle,
        wrapper_retry_errors p fn func args rand hfa hk hle]
      refine ⟨?_, h2⟩
      rw [← h1]
      congr 1
      omega
  | case4 att exc hfa hk =>
      rw [wrapper_raise p fn func args rand hfa hk] at h
      cases h

/-- If a run propagates an exception unmodified, that exception is exactly
the one raised by the final invocation, its kind is not retryable, and no
error-level event was logged. -/
lemma wrapper_result_raised (att : Nat) (e : Err)
    (h : (wrapper p fn func args rand att).result = CallResult.raised e) :
    func args (att + (wrapper p fn func args rand att).invocations) = Sum.inr e ∧
      e.kind ∉ p.exceptions ∧
      (wrapper p fn func args rand att).errors = [] := by
  induction att using wrapper.induct p fn func args rand with
  | case1 att w hfa =>
      rw [wrapper_ok p fn func args rand hfa] at h
      cases h
  | case2 att exc hfa hk hgt =>
      rw [wrapper_exhaust p fn func args rand hfa hk hgt] at h
      cases h
  | case3 att exc hfa hk hle ih =>
      rw [wrapper_retry_result p fn func args rand hfa hk hle] at h
      obtain ⟨h1, h2, h3⟩ := ih h
      rw [wrapper_retry_invocations p fn func args rand hfa hk hle,
        wrapper_retry_errors p fn func args rand hfa hk hle]
      refine ⟨?_, h2, h3⟩
      rw [← h1]
      congr 1
      omega
  | case4 att exc hfa hk =>
      rw [wrapper_raise p fn func args rand hfa hk] at h ⊢
      obtain rfl : exc = e := by cases h; rfl
      exact ⟨hfa, hk, rfl⟩

/-- If a run raises `MaxRetriesExceeded`, then: its message is the exact
f-string of retry.py line 66; its cause is the exception raised by the
final invocation, which was retryable; the final attempt number exceeded
`max_retries`; and exactly one error-level event was logged, reporting
the function name and `attempt - 1` (one less than the number of
invocations). -/
lemma wrapper_result_exhausted (att : Nat) (msg : String) (c : Err)
    (h : (wrapper p fn func args rand att).result =
      CallResult.maxRetriesExceeded msg c) :
    msg = exhaustedMessage fn p.max_retries ∧
      func args (att + (wrapper p fn func args rand att).invocations) = Sum.inr c ∧
      c.kind ∈ p.exceptions ∧
      ((att : Int) + (wrapper p fn func args rand att).invocations > p.max_retries) ∧
      (wrapper p fn func args rand att).errors =
        [⟨fn, (att : Int) + (wrapper p fn func args rand att).invocations - 1, c⟩] := by
  induction att using wrapper.induct p fn func args rand with
  | case1 att w hfa =>
      rw [wrapper_ok p fn func args rand hfa] at h
      cases h
  | case2 att exc hfa hk hgt =>
      rw [wrapper_exhaust p fn func args rand hfa hk hgt] at h ⊢
      obtain ⟨rfl, rfl⟩ : msg = exhaustedMessage fn p.max_retries ∧ exc = c := by
        cases h; exact ⟨rfl, rfl⟩
      exact ⟨rfl, hfa, hk, by push_cast; omega, by norm_num⟩
  | case3 att exc hfa hk hle ih =>
      rw [wrapper_retry_result p fn func args rand hfa hk hle] at h
      obtain ⟨h1, h2, h3, h4, h5⟩ := ih h
      rw [wrapper_retry_invocations p fn func args rand hfa hk hle,
        wrapper_retry_errors p fn func args rand hfa hk hle]
      refine ⟨h1, ?_, h3, by push_cast at h4 ⊢; omega, ?_⟩
      · rw [← h2]
        congr 1
        omega
      · rw [h5]
        refine congrArg₂ List.cons ?_ rfl
        refine congrArg₂ _ ?_ rfl
        push_cast
        omega
  | case4 att exc hfa hk =>
      rw [wrapper_raise p fn func args rand hfa hk] at h
      cases h

end ResultLemmas

section ShapeLemmas

variable {α β : Type} (p : RetryPolicy) (fn : String)
  (func : β → Nat → Sum α Err) (args : β) (rand : Nat → Rat)

/-- If every invocation raises a retryable exception, the run from counter
`att` raises `MaxRetriesExceeded` after exactly `max(max_retries, 0) - att + 1`
invocations. -/
lemma wrapper_allfail
    (hop : ∀ n, 1 ≤ n → ∃ e, func args n = Sum.inr e ∧ e.kind ∈ p.exceptions)
    (att : Nat) :
    (∃ msg c, (wrapper p fn func args rand att).result =
        CallResult.maxRetriesExceeded msg c) ∧
      (wrapper p fn func args rand att).invocations =
        p.max_retries.toNat - att + 1 := by
  induction att using wrapper.induct p fn func args rand with
  | case1 att v hfa =>
      obtain ⟨e, he, -⟩ := hop (att + 1) (Nat.le_add_left 1 att)
      rw [hfa] at he
      cases he
  | case2 att exc hfa hk hgt =>
      have h1 : (wrapper p fn func args rand att).invocations = 1 := by
        rw [wrapper_exhaust p fn func args rand hfa hk hgt]
      have h2 : (wrapper p fn func args rand att).result =
          CallResult.maxRetriesExceeded (exhaustedMessage fn p.max_retries) exc := by
        rw [wrapper_exhaust p fn func args rand hfa hk hgt]
      exact ⟨⟨_, _, h2⟩, by omega⟩
  | case3 att exc hfa hk hle ih =>
      obtain ⟨hres, hinv⟩ := ih
      rw [wrapper_retry_result p fn func args rand hfa hk hle,
        wrapper_retry_invocations p fn func args rand hfa hk hle]
      exact ⟨hres, by omega⟩
  | case4 att exc hfa hk =>
      obtain ⟨e, he, hek⟩ := hop (att + 1) (Nat.le_add_left 1 att)
      rw [hfa] at he
      obtain rfl : exc = e := by cases he; rfl
      exact absurd hek hk

/-- If the invocations numbered `att + 1 .. att + k - 1` raise retryable
exceptions, invocation `att + k` returns `v`, and attempt `att + k - 1`
was still allowed to retry, then the run from counter `att` makes exactly
`k` invocations and returns `v`. -/
lemma wrapper_succeeds (k : Nat) (v : α) :
    ∀ (att : Nat), 1 ≤ k → ((att : Int) + k ≤ p.max_retries + 1) →
    (∀ n, att < n → n < att + k → ∃ e, func args n = Sum.inr e ∧
      e.kind ∈ p.exceptions) →
    func args (att + k) = Sum.inl v →
    (wrapper p fn func args rand att).invocations = k ∧
      (wrapper p fn func args rand att).result = CallResult.ok v := by
  induction k with
  | zero => intro att h1; omega
  | succ k ih =>
      intro att _ hle hfail hsucc
      rcases Nat.eq_zero_or_pos k with rfl | hk
      · have hfa : func args (att + 1) = Sum.inl v := hsucc
        rw [wrapper_ok p fn func args rand hfa]
        exact ⟨rfl, rfl⟩
      · obtain ⟨e, he, hek⟩ := hfail (att + 1) (Nat.lt_succ_self att) (by omega)
        have hnotgt : ¬((att : Int) + 1 > p.max_retries) := by
          push_cast at hle ⊢
          omega
        have hrest := ih (att + 1) hk (by push_cast at hle ⊢; omega)
          (fun n hn1 hn2 => hfail n (by omega) (by omega))
          (by rw [← hsucc]; congr 1; omega)
        rw [wrapper_retry_invocations p fn func args rand he hek hnotgt,
          wrapper_retry_result p fn func args rand he hek hnotgt]
        refine ⟨?_, hrest.2⟩
        rw [hrest.1]
        omega

end ShapeLemmas

/-- Reading an entry of `(List.range n).map f` recovers `f` at the index. -/
lemma rangeMap_get {γ : Type} {f : Nat → γ} {n i : Nat} {d : γ}
    (h : ((List.range n).map f).get? i = some d) : d = f i := by
  rw [List.get?_eq_getElem?, List.getElem?_map] at h
  by_cases hi : i < n
  · rw [List.getElem?_range hi] at h
    cases h
    rfl
  · rw [List.getElem?_eq_none (by simpa using Nat.le_of_not_lt hi)] at h
    cases h

section Fixtures

/-- Fixture: the spec scenario policy `max_retries=3, backoff_factor=1.0,
jitter=false`, retrying on exception kind `0`. -/
def noJitterPolicy : RetryPolicy := ⟨3, 1, [0], false⟩

/-- Fixture: `max_retries=3, backoff_factor=1.0, jitter=true`, retrying on
exception kind `0`. -/
def jitterPolicy : RetryPolicy := ⟨3, 1, [0], true⟩

/-- Fixture: the spec scenario policy `max_retries=2` (non-retryable
scenario), retrying on exception kind `0`. -/
def twoRetryPolicy : RetryPolicy := ⟨2, 1, [0], true⟩

/-- Fixture: the spec scenario policy `max_retries=5`, retrying on
exception kind `0`. -/
def fiveRetryPolicy : RetryPolicy := ⟨5, 1, [0], true⟩

/-- Fixture: a zero retry budget, `max_retries=0`. -/
def zeroRetryPolicy : RetryPolicy := ⟨0, 1, [0], true⟩

/-- Fixture: a policy with `max_retries = -1`, outside the spec's
non-negative precondition. -/
def negativePolicy : RetryPolicy := ⟨-1, 1, [0], true⟩

/-- Fixture: an operation raising a retryable exception (kind `0`) on every
invocation. -/
def alwaysFailOp : Unit → Nat → Sum Unit Err := fun _ _ => Sum.inr ⟨0, 0⟩

/-- Fixture: an operation raising a non-retryable exception (kind `1`) on
every invocation. -/
def nonRetryableOp : Unit → Nat → Sum Unit Err := fun _ _ => Sum.inr ⟨1, 0⟩

/-- Fixture: an operation raising a retryable exception on invocations 1
and 2 and returning `"ok"` from invocation 3 on. -/
def failTwiceOp : Unit → Nat → Sum String Err := fun _ n =>
  if n < 3 then Sum.inr ⟨0, n⟩ else Sum.inl "ok"

/-- Fixture: a random oracle that always draws `0`. -/
def randZero : Nat → Rat := fun _ => 0

/-- Fixture: a random oracle that always draws `1/10`, the top of the
`uniform(-0.1, 0.1)` range. -/
def randTop : Nat → Rat := fun _ => 1/10

end Fixtures

/-- C1: for every policy with non-negative `max_retries = r` and every
wrapped operation raising a retryable exception on every invocation, the
wrapped call invokes the operation exactly `r + 1` times and then raises
the distinguished `MaxRetriesExceeded` (not the underlying exception). -/
theorem claim_C1 {α β : Type} (p : RetryPolicy) (fn : String)
    (func : β → Nat → Sum α Err) (args : β) (rand : Nat → Rat)
    (hr : 0 ≤ p.max_retries)
    (hop : ∀ n, 1 ≤ n → ∃ e, func args n = Sum.inr e ∧ e.kind ∈ p.exceptions) :
    ((retry_on_exception p fn func args rand).invocations : Int) =
        p.max_retries + 1 ∧
      ∃ c, (retry_on_exception p fn func args rand).result =
        CallResult.maxRetriesExceeded (exhaustedMessage fn p.max_retries) c := by
  obtain ⟨⟨msg, c, hres⟩, hinv⟩ := wrapper_allfail p fn func args rand hop 0
  have hmsg := wrapper_result_exhausted p fn func args rand 0 msg c hres
  constructor
  · rw [retry_on_exception, hinv]
    omega
  · exact ⟨c, by rw [retry_on_exception, hres, hmsg.1]⟩

/-- C1 witness: `max_retries = 3` with an always-failing retryable
operation makes exactly 4 invocations. -/
theorem claim_C1_witness :
    (0 : Int) ≤ noJitterPolicy.max_retries ∧
      ((retry_on_exception noJitterPolicy "fetch" alwaysFailOp () randZero).invocations : Int) =
        noJitterPolicy.max_retries + 1 :=
  ⟨by decide,
    (claim_C1 noJitterPolicy "fetch" alwaysFailOp () randZero (by decide)
      (fun n _ => ⟨⟨0, 0⟩, rfl, by decide⟩)).1⟩

/-- C3: an operation raising an exception whose kind is not in the
configured retryable set is invoked exactly once, no delay is slept, and
the original exception propagates unmodified (not `MaxRetriesExceeded`). -/
theorem claim_C3 {α β : Type} (p : RetryPolicy) (fn : String)
    (func : β → Nat → Sum α Err) (args : β) (rand : Nat → Rat) (e : Err)
    (hfa : func args 1 = Sum.inr e) (hk : e.kind ∉ p.exceptions) :
    (retry_on_exception p fn func args rand).invocations = 1 ∧
      (retry_on_exception p fn func args rand).sleeps = [] ∧
      (retry_on_exception p fn func args rand).result = CallResult.raised e := by
  have hfa0 : func args (0 + 1) = Sum.inr e := by rw [Nat.zero_add]; exact hfa
  have h := wrapper_raise p fn func args rand hfa0 hk
  refine ⟨?_, ?_, ?_⟩ <;> rw [retry_on_exception, h]

/-- C3 witness: the spec scenario `max_retries=2` with a non-retryable
exception of kind `1`: one invocation, no sleep, the original exception
surfaces. -/
theorem claim_C3_witness :
    (retry_on_exception twoRetryPolicy "fetch" nonRetryableOp () randTop).invocations = 1 ∧
      (retry_on_exception twoRetryPolicy "fetch" nonRetryableOp () randTop).sleeps = [] ∧
      (retry_on_exception twoRetryPolicy "fetch" nonRetryableOp () randTop).result =
        CallResult.raised ⟨1, 0⟩ :=
  claim_C3 twoRetryPolicy "fetch" nonRetryableOp () randTop ⟨1, 0⟩ rfl (by decide)

/-- C6: for every policy with non-negative `max_retries` and every wrapped
operation, whatever the pattern of successes and failures, the number of
underlying invocations in one wrapped call is at most `max_retries + 1`. -/
theorem claim_C6 {α β : Type} (p : RetryPolicy) (fn : String)
    (func : β → Nat → Sum α Err) (args : β) (rand : Nat → Rat)
    (hr : 0 ≤ p.max_retries) :
    ((retry_on_exception p fn func args rand).invocations : Int) ≤
      p.max_retries + 1 := by
  have h := wrapper_invocations_le p fn func args rand 0
  rw [retry_on_exception]
  omega

/-- C6 witness: the bound instantiated at `max_retries = 3` with an
operation that succeeds on invocation 3. -/
theorem claim_C6_witness :
    (0 : Int) ≤ fiveRetryPolicy.max_retries ∧
      ((retry_on_exception fiveRetryPolicy "fetch" failTwiceOp () randTop).invocations : Int) ≤
        fiveRetryPolicy.max_retries + 1 :=
  ⟨by decide, claim_C6 fiveRetryPolicy "fetch" failTwiceOp () randTop (by decide)⟩

/-- C2: with jitter disabled the delay slept before attempt `n+1` (the
entry of index `n-1` in the sleep trace) is exactly
`backoff_factor * 2^(n-1)`; and in the spec scenario `max_retries=3,
backoff_factor=1.0, jitter=false` with an always-failing retryable
operation, the slept delays are `[1.0, 2.0, 4.0]` and there are exactly 4
invocations. -/
theorem claim_C2 {α β : Type} (p : RetryPolicy) (fn : String)
    (func : β → Nat → Sum α Err) (args : β) (rand : Nat → Rat)
    (hj : p.jitter = false) :
    (∀ i d, (retry_on_exception p fn func args rand).sleeps.get? i = some d →
        d = p.backoff_factor * 2 ^ i) ∧
      ((retry_on_exception noJitterPolicy "fetch" alwaysFailOp () randZero).sleeps =
          [1, 2, 4] ∧
        (retry_on_exception noJitterPolicy "fetch" alwaysFailOp () randZero).invocations = 4) := by
  constructor
  · intro i d hd
    rw [retry_on_exception, wrapper_sleeps] at hd
    rw [rangeMap_get hd, waitFor]
    simp [hj]
  · have hop : ∀ n, 1 ≤ n → ∃ e, alwaysFailOp () n = Sum.inr e ∧
        e.kind ∈ noJitterPolicy.exceptions :=
      fun n _ => ⟨⟨0, 0⟩, rfl, by decide⟩
    obtain ⟨-, hinv⟩ := wrapper_allfail noJitterPolicy "fetch" alwaysFailOp () randZero hop 0
    have hinv4 : (wrapper noJitterPolicy "fetch" alwaysFailOp () randZero 0).invocations = 4 := by
      rw [hinv]
      decide
    constructor
    · rw [retry_on_exception, wrapper_sleeps, hinv4]
      norm_num [List.range_succ, waitFor, noJitterPolicy, randZero]
    · rw [retry_on_exception]
      exact hinv4

/-- C2 witness: the jitter-free hypothesis discharged at the scenario
policy, with the concrete delays and invocation count. -/
theorem claim_C2_witness :
    noJitterPolicy.jitter = false ∧
      ((retry_on_exception noJitterPolicy "fetch" alwaysFailOp () randZero).sleeps =
          [1, 2, 4] ∧
        (retry_on_exception noJitterPolicy "fetch" alwaysFailOp () randZero).invocations = 4) :=
  ⟨rfl, (claim_C2 noJitterPolicy "fetch" alwaysFailOp () randZero rfl).2⟩

/-- C5: an operation that raises retryable exceptions on attempts
`1..k-1` and succeeds on attempt `k ≤ max_retries + 1` is invoked exactly
`k` times, its value is returned with no exception, exactly `k-1`
warning events are logged and no error-level event is logged. -/
theorem claim_C5 {α β : Type} (p : RetryPolicy) (fn : String)
    (func : β → Nat → Sum α Err) (args : β) (rand : Nat → Rat)
    (k : Nat) (v : α) (hk1 : 1 ≤ k) (hkr : (k : Int) ≤ p.max_retries + 1)
    (hfail : ∀ n, 1 ≤ n → n < k → ∃ e, func args n = Sum.inr e ∧
      e.kind ∈ p.exceptions)
    (hsucc : func args k = Sum.inl v) :
    (retry_on_exception p fn func args rand).invocations = k ∧
      (retry_on_exception p fn func args rand).result = CallResult.ok v ∧
      (retry_on_exception p fn func args rand).warns.length = k - 1 ∧
      (retry_on_exception p fn func args rand).errors = [] := by
  rw [retry_on_exception]
  obtain ⟨hinv, hres⟩ := wrapper_succeeds p fn func args rand k v 0 hk1
    (by push_cast; omega)
    (fun n hn1 hn2 => hfail n (by omega) (by omega))
    (by rw [Nat.zero_add]; exact hsucc)
  have herr := (wrapper_result_ok p fn func args rand 0 v hres).2
  have hw := wrapper_warns_length p fn func args rand 0
  exact ⟨hinv, hres, by rw [hw, hinv], herr⟩

/-- C5 witness: the spec scenario `max_retries=5`, two retryable failures
then success with `"ok"`: 3 invocations, value `"ok"`, two warnings, no
error-level event. -/
theorem claim_C5_witness :
    (retry_on_exception fiveRetryPolicy "fetch" failTwiceOp () randTop).invocations = 3 ∧
      (retry_on_exception fiveRetryPolicy "fetch" failTwiceOp () randTop).result =
        CallResult.ok "ok" ∧
      (retry_on_exception fiveRetryPolicy "fetch" failTwiceOp () randTop).warns.length = 2 ∧
      (retry_on_exception fiveRetryPolicy "fetch" failTwiceOp () randTop).errors = [] :=
  claim_C5 fiveRetryPolicy "fetch" failTwiceOp () randTop 3 "ok" (by decide) (by decide)
    (fun n hn1 hn2 => ⟨⟨0, n⟩, by simp [failTwiceOp, hn2], by simp [fiveRetryPolicy]⟩)
    rfl

/-- C7: whenever the wrapped call raises `MaxRetriesExceeded`, the
exception's cause is exactly the exception raised by the last underlying
invocation, and its message is the f-string naming the wrapped operation
and the configured `max_retries`. -/
theorem claim_C7 {α β : Type} (p : RetryPolicy) (fn : String)
    (func : β → Nat → Sum α Err) (args : β) (rand : Nat → Rat)
    (msg : String) (c : Err)
    (h : (retry_on_exception p fn func args rand).result =
      CallResult.maxRetriesExceeded msg c) :
    func args (retry_on_exception p fn func args rand).invocations = Sum.inr c ∧
      msg = exhaustedMessage fn p.max_retries := by
  rw [retry_on_exception] at h ⊢
  have hh := wrapper_result_exhausted p fn func args rand 0 msg c h
  refine ⟨?_, hh.1⟩
  rw [← hh.2.1]
  congr 1
  omega

/-- C7 witness: `max_retries = 0` with an always-failing retryable
operation; the cause is the (only) underlying exception and the message is
the f-string at `max_retries = 0`. -/
theorem claim_C7_witness :
    alwaysFailOp ()
        (retry_on_exception zeroRetryPolicy "fetch" alwaysFailOp () randTop).invocations =
      Sum.inr ⟨0, 0⟩ ∧
      exhaustedMessage "fetch" 0 = exhaustedMessage "fetch" zeroRetryPolicy.max_retries :=
  claim_C7 zeroRetryPolicy "fetch" alwaysFailOp () randTop
    (exhaustedMessage "fetch" 0) ⟨0, 0⟩
    (by
      have hfa0 : alwaysFailOp () (0 + 1) = Sum.inr ⟨0, 0⟩ := rfl
      rw [retry_on_exception,
        wrapper_exhaust zeroRetryPolicy "fetch" alwaysFailOp () randTop
          hfa0 (by decide) (by decide)]
      rfl)

/-- C4 counterexample: in the scenario `max_retries = 3` with an
always-failing retryable operation (4 invocations), the single error-level
event reports the value `3 = attempt - 1`, not the total number of
invocations `max_retries + 1 = 4` the claim asserts. -/
theorem claim_C4_counterexample :
    (retry_on_exception noJitterPolicy "fetch" alwaysFailOp () randZero).errors.map
        ErrorEvent.attempts = [3] ∧
      ¬((3 : Int) = noJitterPolicy.max_retries + 1) := by
  constructor
  · have hop : ∀ n, 1 ≤ n → ∃ e, alwaysFailOp () n = Sum.inr e ∧
        e.kind ∈ noJitterPolicy.exceptions :=
      fun n _ => ⟨⟨0, 0⟩, rfl, by decide⟩
    obtain ⟨⟨msg, c, hres⟩, hinv⟩ :=
      wrapper_allfail noJitterPolicy "fetch" alwaysFailOp () randZero hop 0
    have hh := wrapper_result_exhausted noJitterPolicy "fetch" alwaysFailOp () randZero
      0 msg c hres
    rw [retry_on_exception, hh.2.2.2.2, hinv]
    simp only [List.map_cons, List.map_nil]
    decide
  · decide

/-- C4 amended: when the retry budget is exhausted, exactly one
error-level event is emitted, and it reports the wrapped function's name
together with `max_retries` — the number of retries, which is one FEWER
than the total number of invocations made before giving up. -/
theorem claim_C4 {α β : Type} (p : RetryPolicy) (fn : String)
    (func : β → Nat → Sum α Err) (args : β) (rand : Nat → Rat)
    (hr : 0 ≤ p.max_retries)
    (hop : ∀ n, 1 ≤ n → ∃ e, func args n = Sum.inr e ∧ e.kind ∈ p.exceptions) :
    ∃ c, (retry_on_exception p fn func args rand).errors =
      [⟨fn, p.max_retries, c⟩] := by
  obtain ⟨⟨msg, c, hres⟩, hinv⟩ := wrapper_allfail p fn func args rand hop 0
  have hh := wrapper_result_exhausted p fn func args rand 0 msg c hres
  refine ⟨c, ?_⟩
  rw [retry_on_exception, hh.2.2.2.2]
  refine congrArg₂ List.cons (congrArg₂ _ ?_ rfl) rfl
  rw [hinv]
  omega

/-- C4 witness: at `max_retries = 3` with an always-failing retryable
operation, the one error event reports `3`. -/
theorem claim_C4_witness :
    (0 : Int) ≤ noJitterPolicy.max_retries ∧
      (retry_on_exception noJitterPolicy "fetch" alwaysFailOp () randZero).errors.map
        ErrorEvent.attempts = [noJitterPolicy.max_retries] := by
  refine ⟨by decide, ?_⟩
  obtain ⟨c, hc⟩ := claim_C4 noJitterPolicy "fetch" alwaysFailOp () randZero
    (by decide) (fun n _ => ⟨⟨0, 0⟩, rfl, by decide⟩)
  rw [hc]
  rfl

/-- C8: with jitter enabled, for every sample the uniform source can draw
(any value in `[-0.1, 0.1]`) and any positive `backoff_factor`, the delay
of index `i` in the sleep trace (slept before attempt `i+2`) lies within
`[0.9, 1.1] * backoff_factor * 2^i`, and is in particular nonnegative. -/
theorem claim_C8 {α β : Type} (p : RetryPolicy) (fn : String)
    (func : β → Nat → Sum α Err) (args : β) (rand : Nat → Rat)
    (hj : p.jitter = true)
    (hrand : ∀ n, -(1/10 : Rat) ≤ rand n ∧ rand n ≤ 1/10)
    (hbf : 0 < p.backoff_factor) :
    ∀ i d, (retry_on_exception p fn func args rand).sleeps.get? i = some d →
      (9/10 : Rat) * (p.backoff_factor * 2 ^ i) ≤ d ∧
      d ≤ (11/10 : Rat) * (p.backoff_factor * 2 ^ i) ∧ (0 : Rat) ≤ d := by
  intro i d hd
  rw [retry_on_exception, wrapper_sleeps] at hd
  have hdw : d = p.backoff_factor * 2 ^ i * (1 + rand (0 + i + 1)) := by
    rw [rangeMap_get hd, waitFor, hj]
    norm_num
  obtain ⟨hu1, hu2⟩ := hrand (0 + i + 1)
  have hB : (0 : Rat) < p.backoff_factor * 2 ^ i := by positivity
  refine ⟨?_, ?_, ?_⟩ <;> rw [hdw] <;> nlinarith [hu1, hu2, hB]

/-- C8 witness: jittered policy with `backoff_factor = 1`, the oracle
always drawing the extreme sample `0.1`; the first delay is `1.1`, within
the claimed band. -/
theorem claim_C8_witness :
    (9/10 : Rat) * (jitterPolicy.backoff_factor * 2 ^ 0) ≤ 11/10 ∧
      (11/10 : Rat) ≤ (11/10 : Rat) * (jitterPolicy.backoff_factor * 2 ^ 0) ∧
      (0 : Rat) ≤ 11/10 :=
  claim_C8 jitterPolicy "fetch" alwaysFailOp () randTop rfl
    (fun n => by norm_num [randTop]) (by norm_num [jitterPolicy]) 0 (11/10)
    (by
      have hop : ∀ n, 1 ≤ n → ∃ e, alwaysFailOp () n = Sum.inr e ∧
          e.kind ∈ jitterPolicy.exceptions :=
        fun n _ => ⟨⟨0, 0⟩, rfl, by decide⟩
      obtain ⟨-, hinv⟩ := wrapper_allfail jitterPolicy "fetch" alwaysFailOp () randTop hop 0
      have hinv4 : (wrapper jitterPolicy "fetch" alwaysFailOp () randTop 0).invocations = 4 := by
        rw [hinv]
        decide
      have hsl : (wrapper jitterPolicy "fetch" alwaysFailOp () randTop 0).sleeps =
          [11/10, 11/5, 22/5] := by
        rw [wrapper_sleeps, hinv4]
        norm_num [List.range_succ, waitFor, jitterPolicy, randTop]
      rw [retry_on_exception, hsl]
      rfl)

/-- C9: every invocation of the underlying operation receives exactly the
original argument tuple (the wrapper never alters arguments between
attempts), and a successful wrapped call returns the value produced by the
final underlying invocation unchanged. -/
theorem claim_C9 {α β : Type} (p : RetryPolicy) (fn : String)
    (func : β → Nat → Sum α Err) (args : β) (rand : Nat → Rat) :
    (∀ x ∈ (retry_on_exception p fn func args rand).callArgs, x = args) ∧
      (retry_on_exception p fn func args rand).callArgs.length =
        (retry_on_exception p fn func args rand).invocations ∧
      (∀ v, (retry_on_exception p fn func args rand).result = CallResult.ok v →
        func args (retry_on_exception p fn func args rand).invocations = Sum.inl v) := by
  rw [retry_on_exception]
  have hca := wrapper_callArgs p fn func args rand 0
  refine ⟨?_, ?_, ?_⟩
  · intro x hx
    rw [hca] at hx
    exact List.eq_of_mem_replicate hx
  · rw [hca, List.length_replicate]
  · intro v hv
    have h1 := (wrapper_result_ok p fn func args rand 0 v hv).1
    rw [← h1]
    congr 1
    omega

/-- C9 witness: the argument trace of a concrete run has one entry per
invocation. -/
theorem claim_C9_witness :
    (retry_on_exception noJitterPolicy "fetch" alwaysFailOp () randZero).callArgs.length =
      (retry_on_exception noJitterPolicy "fetch" alwaysFailOp () randZero).invocations :=
  (claim_C9 noJitterPolicy "fetch" alwaysFailOp () randZero).2.1

/-- C10: for every integer `max_retries`, including negative values, the
loop terminates after at most `max(max_retries, 0) + 1` invocations; and
when `max_retries < 0` a retryable exception on the first attempt raises
`MaxRetriesExceeded` immediately, with no sleep. -/
theorem claim_C10 {α β : Type} (p : RetryPolicy) (fn : String)
    (func : β → Nat → Sum α Err) (args : β) (rand : Nat → Rat) :
    (retry_on_exception p fn func args rand).invocations ≤
        p.max_retries.toNat + 1 ∧
      (∀ e, p.max_retries < 0 → func args 1 = Sum.inr e → e.kind ∈ p.exceptions →
        (retry_on_exception p fn func args rand).invocations = 1 ∧
        (retry_on_exception p fn func args rand).sleeps = [] ∧
        (retry_on_exception p fn func args rand).result =
          CallResult.maxRetriesExceeded (exhaustedMessage fn p.max_retries) e) := by
  rw [retry_on_exception]
  constructor
  · have h := wrapper_invocations_le p fn func args rand 0
    omega
  · intro e hneg hfa hk
    have hfa0 : func args (0 + 1) = Sum.inr e := by rw [Nat.zero_add]; exact hfa
    have h := wrapper_exhaust p fn func args rand hfa0 hk (by push_cast; omega)
    refine ⟨?_, ?_, ?_⟩ <;> rw [h]

/-- C10 witness: at `max_retries = -1` with a first-call retryable
exception there is exactly one invocation and no sleep, within the
`max(max_retries, 0) + 1` bound. -/
theorem claim_C10_witness :
    (retry_on_exception negativePolicy "fetch" alwaysFailOp () randTop).invocations ≤
        negativePolicy.max_retries.toNat + 1 ∧
      (retry_on_exception negativePolicy "fetch" alwaysFailOp () randTop).invocations = 1 ∧
      (retry_on_exception negativePolicy "fetch" alwaysFailOp () randTop).sleeps = [] :=
  ⟨(claim_C10 negativePolicy "fetch" alwaysFailOp () randTop).1,
    ((claim_C10 negativePolicy "fetch" alwaysFailOp () randTop).2 ⟨0, 0⟩
      (by decide) rfl (by decide)).1,
    ((claim_C10 negativePolicy "fetch" alwaysFailOp () randTop).2 ⟨0, 0⟩
      (by decide) rfl (by decide)).2.1⟩
